import Mathlib

/-!
LearnOpenGL: the `Shader` helper of `includes/learnopengl/shader_s.h`.

A shallow embedding of the class `Shader` (constructor, `use`, `setBool`,
`setInt`, `setFloat`, `checkCompileErrors`) together with the two external
collaborators it talks to:

* the file streams of the `try` block, given by a `FileSystem` that says, for
  every path, what the stream operations do and which of them (if any) raises
  `std::ifstream::failure`;
* the graphics backend, given by a record `Backend σ` of the OpenGL entry
  points the class calls, over an arbitrary backend state `σ`.

Every backend call made by the class is appended to a call log and every
statement writing to `std::cout` appends one `Diag` to the console log, so that
statements about the order of calls and about diagnostics can be made.

`refGL` is a reference backend following the OpenGL 3.3 core rules for the
commands the class uses; statements about the current program and about
uniform values are made on it.
-/

namespace LearnOpenGL

/-! ## Scalar types of the API -/

/-- `GLuint` / `unsigned int`: object names handed out by the backend. -/
abbrev GLuint := Nat
/-- `GLint` / `int`. -/
abbrev GLint := Int
/-- `GLenum`. -/
abbrev GLenum := Nat
/-- `GLsizei`. -/
abbrev GLsizei := Nat

/-- `GLfloat` / `float`, kept as its IEEE-754 binary32 bit pattern; the class
only passes floats through, it never computes with them. -/
structure GLfloat where
  bits : Nat
  deriving DecidableEq, Repr

/-- Whether a float is `+0.0` or `-0.0` (all bits but the sign bit are zero). -/
def GLfloat.isZero (f : GLfloat) : Bool := f.bits % 2 ^ 31 == 0

def GL_FRAGMENT_SHADER : GLenum := 0x8B30
def GL_VERTEX_SHADER : GLenum := 0x8B31
def GL_COMPILE_STATUS : GLenum := 0x8B81
def GL_LINK_STATUS : GLenum := 0x8B82

/-! ## Console output -/

/-- One statement `std::cout << ... << std::endl` of the class. There are three
such statements in the source, one per constructor. -/
inductive Diag where
  /-- Line 48, the `catch` block of the constructor. -/
  | fileNotRead (what : String)
  /-- Line 123, `checkCompileErrors` with `type != "PROGRAM"`. -/
  | compileError (type : String) (infoLog : String)
  /-- Line 132, `checkCompileErrors` with `type == "PROGRAM"`. -/
  | linkError (type : String) (infoLog : String)
  deriving DecidableEq, Repr

/-- The text written to `std::cout` by a diagnostic (without the final
`std::endl`). -/
def Diag.render : Diag → String
  | .fileNotRead what => "ERROR::SHADER::FILE_NOT_SUCCESSFULLY_READ: " ++ what
  | .compileError type infoLog =>
      "ERROR::SHADER_COMPILATION_ERROR of type: " ++ type ++ "\n" ++ infoLog
        ++ "\n -- --------------------------------------------------- -- "
  | .linkError type infoLog =>
      "ERROR::PROGRAM_LINKING_ERROR of type: " ++ type ++ "\n" ++ infoLog
        ++ "\n -- --------------------------------------------------- -- "

/-- A compile diagnostic tagged with the given stage name. -/
def Diag.isCompileOf (tag : String) : Diag → Bool
  | .compileError type _ => type == tag
  | _ => false

/-- A link diagnostic. -/
def Diag.isLink : Diag → Bool
  | .linkError _ _ => true
  | _ => false

/-- A file-read diagnostic. -/
def Diag.isFileRead : Diag → Bool
  | .fileNotRead _ => true
  | _ => false

/-! ## Exceptions and file streams -/

/-- A C++ exception in flight, by its class. -/
inductive Exception where
  /-- The class `std::ios_base::failure`; `std::ifstream::failure` is another
  name of it. -/
  | iosFailure (what : String)
  /-- An exception of any other class. -/
  | other (what : String)
  deriving DecidableEq, Repr

/-- What the stream operations of the `try` block do on one path. Both
`std::ifstream` objects have `failbit | badbit` in their exception mask (lines
28-29), so `open` and `close`, which set `failbit` on the `ifstream` when they
fail, raise `std::ifstream::failure` carrying the text `what`. The read of
lines 37-38 does not go through the `ifstream`: it inserts `file.rdbuf()` into
a `std::stringstream`, whose exception mask is empty, so a read that fails
sets `failbit` on the string stream only and raises nothing. -/
inductive FileOutcome where
  /-- The file cannot be opened: `open` raises. -/
  | openFails (what : String)
  /-- The file opens but cannot be read (a directory, an I/O error): the read
  stops after the characters `got`, none for a directory; `close` succeeds. -/
  | readFails (got : String)
  /-- `open` and the read succeed with the given content, `close` raises. -/
  | closeFails (content : String) (what : String)
  /-- All three operations succeed; the file holds `content`. -/
  | readable (content : String)
  deriving DecidableEq, Repr

/-- The files the program can see. -/
abbrev FileSystem := String → FileOutcome

/-- `std::ifstream::open`. -/
def FileOutcome.open : FileOutcome → Except Exception Unit
  | .openFails what => .error (.iosFailure what)
  | _ => .ok ()

/-- `stream << file.rdbuf()` followed by `stream.str()`: the characters that
came through, all of them when the read does not fail. Nothing is raised (on a
file that did not open, `open` has raised before). -/
def FileOutcome.rdbuf : FileOutcome → Except Exception String
  | .openFails what => .error (.iosFailure what)
  | .readFails got => .ok got
  | .closeFails content _ => .ok content
  | .readable content => .ok content

/-- `std::ifstream::close`. -/
def FileOutcome.close : FileOutcome → Except Exception Unit
  | .closeFails _ what => .error (.iosFailure what)
  | _ => .ok ()

/-- The body of the `try` block, lines 32-44, in statement order; the result is
the pair assigned to `vertexCode` and `fragmentCode` by the last two
statements, or the exception that leaves the block. -/
def tryReadSources (fs : FileSystem) (vertexPath fragmentPath : String) :
    Except Exception (String × String) :=
  (fs vertexPath).open >>= fun _ =>
  (fs fragmentPath).open >>= fun _ =>
  (fs vertexPath).rdbuf >>= fun vShaderStream =>
  (fs fragmentPath).rdbuf >>= fun fShaderStream =>
  (fs vertexPath).close >>= fun _ =>
  (fs fragmentPath).close >>= fun _ =>
  pure (vShaderStream, fShaderStream)

/-! ## The graphics backend -/

/-- The OpenGL entry points used by the class, over a backend state `σ`. A
query returns its answer together with the next state. `glShaderSource` is
called with one string and no length array, `glGet*iv` returns the value it
writes to `*params`, `glGet*InfoLog` the text it writes to the buffer. -/
structure Backend (σ : Type) where
  glCreateShader : GLenum → σ → GLuint × σ
  glShaderSource : GLuint → String → σ → σ
  glCompileShader : GLuint → σ → σ
  glGetShaderiv : GLuint → GLenum → σ → GLint × σ
  glGetShaderInfoLog : GLuint → GLsizei → σ → String × σ
  glCreateProgram : σ → GLuint × σ
  glAttachShader : GLuint → GLuint → σ → σ
  glLinkProgram : GLuint → σ → σ
  glGetProgramiv : GLuint → GLenum → σ → GLint × σ
  glGetProgramInfoLog : GLuint → GLsizei → σ → String × σ
  glDeleteShader : GLuint → σ → σ
  glUseProgram : GLuint → σ → σ
  glGetUniformLocation : GLuint → String → σ → GLint × σ
  glUniform1i : GLint → GLint → σ → σ
  glUniform1f : GLint → GLfloat → σ → σ

/-- One backend call as issued by the class, with the value it returned. -/
inductive GLCall where
  | createShader (type : GLenum) (ret : GLuint)
  | shaderSource (shader : GLuint) (source : String)
  | compileShader (shader : GLuint)
  | getShaderiv (shader : GLuint) (pname : GLenum) (out : GLint)
  | getShaderInfoLog (shader : GLuint) (bufSize : GLsizei) (out : String)
  | createProgram (ret : GLuint)
  | attachShader (program : GLuint) (shader : GLuint)
  | linkProgram (program : GLuint)
  | getProgramiv (program : GLuint) (pname : GLenum) (out : GLint)
  | getProgramInfoLog (program : GLuint) (bufSize : GLsizei) (out : String)
  | deleteShader (shader : GLuint)
  | useProgram (program : GLuint)
  | getUniformLocation (program : GLuint) (name : String) (ret : GLint)
  | uniform1i (location : GLint) (v0 : GLint)
  | uniform1f (location : GLint) (v0 : GLfloat)
  deriving DecidableEq, Repr

/-- Everything outside the `Shader` object that the class acts on: the backend
state, the backend calls issued so far (oldest first) and the diagnostics
written to `std::cout` so far (oldest first). -/
structure World (σ : Type) where
  gl : σ
  calls : List GLCall
  cout : List Diag

/-- A world in which nothing has been called or printed yet. -/
def World.start {σ : Type} (s : σ) : World σ := ⟨s, [], []⟩

/-- `std::cout << ... << std::endl`. -/
def World.print {σ : Type} (w : World σ) (d : Diag) : World σ :=
  { w with cout := w.cout ++ [d] }

/-- A backend command without result: run it, log it. -/
def World.command {σ : Type} (w : World σ) (f : σ → σ) (c : GLCall) : World σ :=
  { w with gl := f w.gl, calls := w.calls ++ [c] }

/-- A backend call with a result: run it, log it with its result. -/
def World.query {σ α : Type} (w : World σ) (f : σ → α × σ) (c : α → GLCall) :
    α × World σ :=
  ((f w.gl).1, { w with gl := (f w.gl).2, calls := w.calls ++ [c (f w.gl).1] })

/-! ## The class `Shader` -/

/-- `std::string::c_str()` as the backend reads it: a NUL-terminated string,
that is, the characters before the first NUL. `glShaderSource` is called with
`length == NULL` and `glGetUniformLocation` takes a `const char*`. -/
def cStr (text : String) : String :=
  ⟨text.data.takeWhile (fun ch => ch != Char.ofNat 0)⟩

/-- The only data member: `unsigned int ID`. -/
structure Shader where
  ID : GLuint
  deriving DecidableEq, Repr

/-- `Shader::checkCompileErrors(shader, type)`, lines 113-135. The source
returns nothing; the embedding returns the local `success` next to the world so
that the status the backend reported can be named in statements. `!success` is
`success == 0`. The local `success` is declared without initial value; the
query is taken to write it, so it is the value the backend reported. -/
def Shader.checkCompileErrors {σ : Type} (B : Backend σ) (shader : GLuint)
    (type : String) (w : World σ) : GLint × World σ :=
  if type != "PROGRAM" then
    let r := w.query (B.glGetShaderiv shader GL_COMPILE_STATUS)
      (GLCall.getShaderiv shader GL_COMPILE_STATUS)
    let success := r.1
    if success == 0 then
      let l := r.2.query (B.glGetShaderInfoLog shader 1024)
        (GLCall.getShaderInfoLog shader 1024)
      (success, l.2.print (Diag.compileError type l.1))
    else
      (success, r.2)
  else
    let r := w.query (B.glGetProgramiv shader GL_LINK_STATUS)
      (GLCall.getProgramiv shader GL_LINK_STATUS)
    let success := r.1
    if success == 0 then
      let l := r.2.query (B.glGetProgramInfoLog shader 1024)
        (GLCall.getProgramInfoLog shader 1024)
      (success, l.2.print (Diag.linkError type l.1))
    else
      (success, r.2)

/-- The constructed object together with the locals of the constructor and the
three statuses read by `checkCompileErrors`. -/
structure Construction (σ : Type) where
  shader : Shader
  world : World σ
  vertexCode : String
  fragmentCode : String
  vertex : GLuint
  fragment : GLuint
  vertexStatus : GLint
  fragmentStatus : GLint
  linkStatus : GLint

/-- Lines 23-49: the two strings start empty; the `try` block assigns both at
its end; the clause `catch (std::ifstream::failure& e)` takes an exception of
that class, prints and leaves the strings as they are; an exception of another
class is not caught and leaves the constructor. -/
def Shader.loadSources {σ : Type} (fs : FileSystem) (vertexPath fragmentPath : String)
    (w : World σ) : Except Exception ((String × String) × World σ) :=
  match tryReadSources fs vertexPath fragmentPath with
  | .ok codes => .ok (codes, w)
  | .error (.iosFailure what) => .ok (("", ""), w.print (Diag.fileNotRead what))
  | .error e => .error e

/-- Lines 50-74 of the constructor: what follows the `try`/`catch`, from the
two strings and the world it left. No statement here raises. -/
def Shader.compileAndLink {σ : Type} (B : Backend σ)
    (src : (String × String) × World σ) : Construction σ :=
  let vertexCode := src.1.1
  let fragmentCode := src.1.2
  let vShaderCode := cStr vertexCode
  let fShaderCode := cStr fragmentCode
  -- 2. compile shaders: vertex shader
  let v := src.2.query (B.glCreateShader GL_VERTEX_SHADER) (GLCall.createShader GL_VERTEX_SHADER)
  let vertex := v.1
  let w1 := v.2.command (B.glShaderSource vertex vShaderCode)
    (GLCall.shaderSource vertex vShaderCode)
  let w2 := w1.command (B.glCompileShader vertex) (GLCall.compileShader vertex)
  let cv := Shader.checkCompileErrors B vertex "VERTEX" w2
  -- fragment shader
  let f := cv.2.query (B.glCreateShader GL_FRAGMENT_SHADER) (GLCall.createShader GL_FRAGMENT_SHADER)
  let fragment := f.1
  let w3 := f.2.command (B.glShaderSource fragment fShaderCode)
    (GLCall.shaderSource fragment fShaderCode)
  let w4 := w3.command (B.glCompileShader fragment) (GLCall.compileShader fragment)
  let cf := Shader.checkCompileErrors B fragment "FRAGMENT" w4
  -- shader program
  let p := cf.2.query B.glCreateProgram GLCall.createProgram
  let ID := p.1
  let w5 := p.2.command (B.glAttachShader ID vertex) (GLCall.attachShader ID vertex)
  let w6 := w5.command (B.glAttachShader ID fragment) (GLCall.attachShader ID fragment)
  let w7 := w6.command (B.glLinkProgram ID) (GLCall.linkProgram ID)
  let cp := Shader.checkCompileErrors B ID "PROGRAM" w7
  -- delete the shaders
  let w8 := cp.2.command (B.glDeleteShader vertex) (GLCall.deleteShader vertex)
  let w9 := w8.command (B.glDeleteShader fragment) (GLCall.deleteShader fragment)
  { shader := ⟨ID⟩, world := w9, vertexCode := vertexCode, fragmentCode := fragmentCode,
    vertex := vertex, fragment := fragment,
    vertexStatus := cv.1, fragmentStatus := cf.1, linkStatus := cp.1 }

/-- The constructor `Shader::Shader(vertexPath, fragmentPath)`, lines 20-74:
the object with the locals, or the exception that leaves the constructor. -/
def Shader.construct {σ : Type} (B : Backend σ) (fs : FileSystem)
    (vertexPath fragmentPath : String) (w : World σ) : Except Exception (Construction σ) :=
  -- 1. retrieve the vertex/fragment source code from filePath
  match Shader.loadSources fs vertexPath fragmentPath w with
  | .error e => .error e
  -- 2. compile shaders, link the program
  | .ok src => .ok (Shader.compileAndLink B src)

/-- `Shader::use()`, lines 78-81. -/
def Shader.use {σ : Type} (B : Backend σ) (self : Shader) (w : World σ) : World σ :=
  w.command (B.glUseProgram self.ID) (GLCall.useProgram self.ID)

/-- `(int)value` for a `bool`. -/
def boolToInt (value : Bool) : GLint := if value then 1 else 0

/-- `Shader::setBool(name, value)`, lines 88-91. -/
def Shader.setBool {σ : Type} (B : Backend σ) (self : Shader) (name : String) (value : Bool)
    (w : World σ) : World σ :=
  let loc := w.query (B.glGetUniformLocation self.ID (cStr name))
    (GLCall.getUniformLocation self.ID (cStr name))
  loc.2.command (B.glUniform1i loc.1 (boolToInt value)) (GLCall.uniform1i loc.1 (boolToInt value))

/-- `Shader::setInt(name, value)`, lines 96-99. -/
def Shader.setInt {σ : Type} (B : Backend σ) (self : Shader) (name : String) (value : GLint)
    (w : World σ) : World σ :=
  let loc := w.query (B.glGetUniformLocation self.ID (cStr name))
    (GLCall.getUniformLocation self.ID (cStr name))
  loc.2.command (B.glUniform1i loc.1 value) (GLCall.uniform1i loc.1 value)

/-- `Shader::setFloat(name, value)`, lines 104-107. -/
def Shader.setFloat {σ : Type} (B : Backend σ) (self : Shader) (name : String) (value : GLfloat)
    (w : World σ) : World σ :=
  let loc := w.query (B.glGetUniformLocation self.ID (cStr name))
    (GLCall.getUniformLocation self.ID (cStr name))
  loc.2.command (B.glUniform1f loc.1 value) (GLCall.uniform1f loc.1 value)

/-! ## A reference backend

The state and the commands below follow the OpenGL 3.3 core specification
(sections 2.11.1 Shader Objects, 2.11.2 Program Objects and 2.11.4 Uniform
Variables) for the entry points of `Backend`. The GLSL compiler and linker are
a parameter. The error flag read by `glGetError` is not part of the state (the
class never reads it): a command that generates an error has no other effect.
-/

/-- The value of a uniform variable of the default uniform block, tagged by its
type. `int` also stands for the sampler types, which are loaded as ints;
`other` is any type that `glUniform1i` and `glUniform1f` cannot load (vectors,
matrices, unsigned and array types). -/
inductive UniformValue where
  | bool (b : Bool)
  | int (i : GLint)
  | float (f : GLfloat)
  | other
  deriving DecidableEq, Repr

/-- An active uniform of a linked program. -/
structure Uniform where
  name : String
  value : UniformValue
  deriving DecidableEq, Repr

/-- A shader object. `attachCount` is the number of programs it is attached
to. -/
structure ShaderObject where
  type : GLenum
  source : String
  compileStatus : Bool
  infoLog : String
  deleteStatus : Bool
  attachCount : Nat
  deriving DecidableEq, Repr

/-- A program object. `uniforms` are the active uniforms of the last link; the
location of a uniform is its position in the list. -/
structure ProgramObject where
  attached : List GLuint
  linkStatus : Bool
  infoLog : String
  uniforms : List Uniform
  deriving DecidableEq, Repr

/-- The GLSL compiler and linker of a backend: `compile` accepts or rejects the
source of a stage (with an info log), `link` accepts or rejects the attached
compiled stages and on success gives the active uniforms with their initial
values. -/
structure Glsl where
  compile : GLenum → String → Except String Unit
  link : List (GLenum × String) → Except String (List Uniform)

/-- The part of the OpenGL state the class can reach. -/
structure GLState where
  shaders : GLuint → Option ShaderObject
  programs : GLuint → Option ProgramObject
  /-- The program object in use (`GL_CURRENT_PROGRAM`), `0` for none. -/
  current : GLuint
  /-- The last object name handed out. -/
  lastName : GLuint

/-- A context in which no object has been created. -/
def GLState.init : GLState := ⟨fun _ => none, fun _ => none, 0, 0⟩

/-- Replace the object stored under one name. -/
def setAt {α : Type} (m : GLuint → Option α) (name : GLuint) (o : Option α) :
    GLuint → Option α :=
  fun k => if k = name then o else m k

/-- Store a shader object (or its absence) under a name. -/
def GLState.setShader (s : GLState) (name : GLuint) (o : Option ShaderObject) : GLState :=
  { s with shaders := setAt s.shaders name o }

/-- Store a program object under a name. -/
def GLState.setProgram (s : GLState) (name : GLuint) (p : ProgramObject) : GLState :=
  { s with programs := setAt s.programs name (some p) }

/-- The value of the uniform at `location` of `program`, if there is one. -/
def GLState.uniform (s : GLState) (program : GLuint) (location : Nat) : Option UniformValue :=
  match s.programs program with
  | none => none
  | some p => p.uniforms[location]?.map Uniform.value

namespace RefGL

def glCreateShader (type : GLenum) (s : GLState) : GLuint × GLState :=
  if type = GL_VERTEX_SHADER ∨ type = GL_FRAGMENT_SHADER then
    (s.lastName + 1,
      { s.setShader (s.lastName + 1) (some ⟨type, "", false, "", false, 0⟩) with
        lastName := s.lastName + 1 })
  else (0, s)

def glShaderSource (shader : GLuint) (source : String) (s : GLState) : GLState :=
  match s.shaders shader with
  | none => s
  | some o => s.setShader shader (some { o with source := source })

def glCompileShader (glsl : Glsl) (shader : GLuint) (s : GLState) : GLState :=
  match s.shaders shader with
  | none => s
  | some o =>
    match glsl.compile o.type o.source with
    | .ok _ => s.setShader shader (some { o with compileStatus := true, infoLog := "" })
    | .error log => s.setShader shader (some { o with compileStatus := false, infoLog := log })

/-- For an unknown name or parameter the GL writes nothing to `*params`; the
model then answers `0`. -/
def glGetShaderiv (shader : GLuint) (pname : GLenum) (s : GLState) : GLint × GLState :=
  match s.shaders shader with
  | none => (0, s)
  | some o => (if pname = GL_COMPILE_STATUS ∧ o.compileStatus then 1 else 0, s)

/-- At most `bufSize - 1` characters of the log are returned. -/
def glGetShaderInfoLog (shader : GLuint) (bufSize : GLsizei) (s : GLState) : String × GLState :=
  match s.shaders shader with
  | none => ("", s)
  | some o => (o.infoLog.take (bufSize - 1), s)

def glCreateProgram (s : GLState) : GLuint × GLState :=
  (s.lastName + 1,
    { s.setProgram (s.lastName + 1) ⟨[], false, "", []⟩ with lastName := s.lastName + 1 })

def glAttachShader (program shader : GLuint) (s : GLState) : GLState :=
  match s.programs program, s.shaders shader with
  | some p, some o =>
    if shader ∈ p.attached then s
    else
      (s.setProgram program { p with attached := p.attached ++ [shader] }).setShader shader
        (some { o with attachCount := o.attachCount + 1 })
  | _, _ => s

/-- The attached shader objects of a program, in attachment order. -/
def attachedObjects (s : GLState) (p : ProgramObject) : List ShaderObject :=
  p.attached.filterMap s.shaders

/-- Linking fails when an attached shader is not compiled, otherwise the
linker decides. A failed link leaves no active uniforms. -/
def glLinkProgram (glsl : Glsl) (program : GLuint) (s : GLState) : GLState :=
  match s.programs program with
  | none => s
  | some p =>
    let objs := attachedObjects s p
    if objs.all (fun o => o.compileStatus) then
      match glsl.link (objs.map fun o => (o.type, o.source)) with
      | .ok us =>
        s.setProgram program { p with linkStatus := true, infoLog := "", uniforms := us }
      | .error log =>
        s.setProgram program { p with linkStatus := false, infoLog := log, uniforms := [] }
    else
      s.setProgram program
        { p with linkStatus := false, infoLog := "attached shader not compiled", uniforms := [] }

/-- For an unknown name or parameter the GL writes nothing to `*params`; the
model then answers `0`. -/
def glGetProgramiv (program : GLuint) (pname : GLenum) (s : GLState) : GLint × GLState :=
  match s.programs program with
  | none => (0, s)
  | some p => (if pname = GL_LINK_STATUS ∧ p.linkStatus then 1 else 0, s)

def glGetProgramInfoLog (program : GLuint) (bufSize : GLsizei) (s : GLState) :
    String × GLState :=
  match s.programs program with
  | none => ("", s)
  | some p => (p.infoLog.take (bufSize - 1), s)

/-- A shader attached to a program is only flagged for deletion; one attached
to no program is deleted at once. The name `0` is ignored. -/
def glDeleteShader (shader : GLuint) (s : GLState) : GLState :=
  match s.shaders shader with
  | none => s
  | some o =>
    if o.attachCount = 0 then s.setShader shader none
    else s.setShader shader (some { o with deleteStatus := true })

/-- `glUseProgram(0)` leaves no program in use. A name that is not a program
object, or a program that is not linked successfully, generates an error and
the program in use stays what it was. -/
def glUseProgram (program : GLuint) (s : GLState) : GLState :=
  if program = 0 then { s with current := 0 }
  else
    match s.programs program with
    | none => s
    | some p => if p.linkStatus then { s with current := program } else s

/-- The position of the first active uniform called `name`, `-1` if there is
none. -/
def locationOf (name : String) (us : List Uniform) : GLint :=
  match us.findIdx? (fun u => u.name == name) with
  | none => -1
  | some i => (i : GLint)

/-- `-1` when `name` is not an active uniform of `program`, and also when
`program` is not a successfully linked program object (an error). -/
def glGetUniformLocation (program : GLuint) (name : String) (s : GLState) : GLint × GLState :=
  match s.programs program with
  | none => (-1, s)
  | some p => (if p.linkStatus then locationOf name p.uniforms else -1, s)

/-- What `glUniform1i` stores into a uniform; `none` for a type it cannot
load. -/
def load1i (v0 : GLint) : UniformValue → Option UniformValue
  | .int _ => some (.int v0)
  | .bool _ => some (.bool (v0 != 0))
  | _ => none

/-- What `glUniform1f` stores into a uniform; `none` for a type it cannot
load. -/
def load1f (v0 : GLfloat) : UniformValue → Option UniformValue
  | .float _ => some (.float v0)
  | .bool _ => some (.bool (!v0.isZero))
  | _ => none

/-- The `glUniform*` commands: they take a location and a value, no program;
the uniform loaded is the one at `location` of the program object in use. The
location `-1` is silently ignored. No program in use, a location that is not
one of that program, or a value the uniform cannot be loaded with, is an
error. -/
def uniform (load : UniformValue → Option UniformValue) (location : GLint) (s : GLState) :
    GLState :=
  if location = -1 then s
  else
    match s.programs s.current with
    | none => s
    | some p =>
      if location < 0 then s
      else
        match p.uniforms[location.toNat]? with
        | none => s
        | some u =>
          match load u.value with
          | none => s
          | some v =>
            s.setProgram s.current
              { p with uniforms := p.uniforms.set location.toNat { u with value := v } }

def glUniform1i (location : GLint) (v0 : GLint) (s : GLState) : GLState :=
  uniform (load1i v0) location s

def glUniform1f (location : GLint) (v0 : GLfloat) (s : GLState) : GLState :=
  uniform (load1f v0) location s

end RefGL

/-- The reference backend over a given GLSL compiler and linker. -/
def refGL (glsl : Glsl) : Backend GLState where
  glCreateShader := RefGL.glCreateShader
  glShaderSource := RefGL.glShaderSource
  glCompileShader := RefGL.glCompileShader glsl
  glGetShaderiv := RefGL.glGetShaderiv
  glGetShaderInfoLog := RefGL.glGetShaderInfoLog
  glCreateProgram := RefGL.glCreateProgram
  glAttachShader := RefGL.glAttachShader
  glLinkProgram := RefGL.glLinkProgram glsl
  glGetProgramiv := RefGL.glGetProgramiv
  glGetProgramInfoLog := RefGL.glGetProgramInfoLog
  glDeleteShader := RefGL.glDeleteShader
  glUseProgram := RefGL.glUseProgram
  glGetUniformLocation := RefGL.glGetUniformLocation
  glUniform1i := RefGL.glUniform1i
  glUniform1f := RefGL.glUniform1f

/-! ## Vocabulary of the statements -/

/-- What the constructor leaves when run in world `w`: the object and the
locals when it returns; when an exception leaves it there is no object, and
the record is empty (`ID` 0, the world as it was, every status 0). -/
def constructionFrom {σ : Type} (B : Backend σ) (fs : FileSystem)
    (vertexPath fragmentPath : String) (w : World σ) : Construction σ :=
  match Shader.construct B fs vertexPath fragmentPath w with
  | .ok c => c
  | .error _ => ⟨⟨0⟩, w, "", "", 0, 0, 0, 0, 0⟩

/-- The constructor run in a world whose logs are empty, on backend state `s`:
the logs of the result are what the constructor itself called and printed. -/
def construction {σ : Type} (B : Backend σ) (fs : FileSystem)
    (vertexPath fragmentPath : String) (s : σ) : Construction σ :=
  constructionFrom B fs vertexPath fragmentPath (World.start s)

/-- The two stages compiled by the constructor. -/
inductive Stage where
  | vertex
  | fragment
  deriving DecidableEq, Repr

/-- The name passed to `checkCompileErrors` for a stage (lines 58 and 63). -/
def Stage.tag : Stage → String
  | .vertex => "VERTEX"
  | .fragment => "FRAGMENT"

/-- The compile status the backend reported for a stage. -/
def Construction.status {σ : Type} (c : Construction σ) : Stage → GLint
  | .vertex => c.vertexStatus
  | .fragment => c.fragmentStatus

/-- The calls of lines 55-58 (or 60-63) for given results of the backend. -/
def stageCalls (type : GLenum) (shader : GLuint) (code : String) (status : GLint)
    (log : String) : List GLCall :=
  [GLCall.createShader type shader, GLCall.shaderSource shader code,
    GLCall.compileShader shader, GLCall.getShaderiv shader GL_COMPILE_STATUS status]
    ++ (if status = 0 then [GLCall.getShaderInfoLog shader 1024 log] else [])

/-- The calls of lines 66-70 for given results of the backend. -/
def programCalls (ID vertex fragment : GLuint) (status : GLint) (log : String) : List GLCall :=
  [GLCall.createProgram ID, GLCall.attachShader ID vertex, GLCall.attachShader ID fragment,
    GLCall.linkProgram ID, GLCall.getProgramiv ID GL_LINK_STATUS status]
    ++ (if status = 0 then [GLCall.getProgramInfoLog ID 1024 log] else [])

/-- What the `catch` block prints for a result of the `try` block. -/
def readDiags : Except Exception (String × String) → List Diag
  | .error (.iosFailure what) => [Diag.fileNotRead what]
  | _ => []

/-- The text carried by the exception a file raises, if it raises one. -/
def FileOutcome.failure : FileOutcome → Option String
  | .openFails what => some what
  | .readFails _ => none
  | .closeFails _ what => some what
  | .readable _ => none

/-- The file cannot be opened or cannot be read. -/
def FileOutcome.unreadable : FileOutcome → Bool
  | .openFails _ => true
  | .readFails _ => true
  | _ => false

/-- Calls that set up a stage: create, source, compile. -/
def GLCall.isStageSetup : GLCall → Bool
  | .createShader _ _ => true
  | .shaderSource _ _ => true
  | .compileShader _ => true
  | _ => false

/-- Calls to `glCreateProgram`. -/
def GLCall.isCreateProgram : GLCall → Bool
  | .createProgram _ => true
  | _ => false

/-! ## Concrete inputs used to instantiate the statements -/

/-- A toy GLSL implementation: a stage compiles iff its source is not empty;
linking succeeds and exposes a bool, an int and a float uniform. -/
def toyGlsl : Glsl where
  compile := fun _ source => if source = "" then .error "empty source" else .ok ()
  link := fun _ => .ok [⟨"flag", .bool false⟩, ⟨"count", .int 0⟩, ⟨"scale", .float ⟨0⟩⟩]

/-- Two readable files, `a.vs` and `a.fs`; nothing else can be opened. -/
def toyFiles : FileSystem := fun path =>
  if path = "a.vs" then .readable "void main()\x7b\x7d"
  else if path = "a.fs" then .readable "out vec4 c;"
  else .openFails "basic_ios::clear"

/-- Every uniform value of every program is the same in `s'` as in `s`, except
possibly the one at `location` of `program`. -/
def sameUniformsExcept (s s' : GLState) (program : GLuint) (location : Nat) : Prop :=
  ∀ q l, q ≠ program ∨ l ≠ location → s'.uniform q l = s.uniform q l

/-- Whether a name is a successfully linked program object. -/
def GLState.isLinked (s : GLState) (program : GLuint) : Bool :=
  match s.programs program with
  | none => false
  | some p => p.linkStatus

/-- First scene: a shader `P` built from the two toy files in a new context. -/
def sceneP : Construction GLState :=
  construction (refGL toyGlsl) toyFiles "a.vs" "a.fs" GLState.init

/-- Second scene: after `P`, a second shader `Q` is built from the same files,
and `Q` is activated with `use`. -/
def sceneQ : Construction GLState :=
  constructionFrom (refGL toyGlsl) toyFiles "a.vs" "a.fs" sceneP.world

/-- The world of the second scene after `Q.use()`. -/
def sceneQUsed : World GLState := sceneQ.shader.use (refGL toyGlsl) sceneQ.world

/-- Third scene: `P` is built and activated, then a shader `R` is built from
two files that do not exist. -/
def sceneR : Construction GLState :=
  constructionFrom (refGL toyGlsl) toyFiles "x.vs" "x.fs"
    (sceneP.shader.use (refGL toyGlsl) sceneP.world)

/-- One logged call run on the backend from state `g`: the state the backend
is left in, provided the result written in the log is what the backend
answers; `none` when the log and the backend disagree. -/
def Backend.step {σ : Type} (B : Backend σ) : GLCall → σ → Option σ
  | .createShader type ret, g =>
    if (B.glCreateShader type g).1 = ret then some (B.glCreateShader type g).2 else none
  | .shaderSource shader source, g => some (B.glShaderSource shader source g)
  | .compileShader shader, g => some (B.glCompileShader shader g)
  | .getShaderiv shader pname out, g =>
    if (B.glGetShaderiv shader pname g).1 = out then some (B.glGetShaderiv shader pname g).2
    else none
  | .getShaderInfoLog shader bufSize out, g =>
    if (B.glGetShaderInfoLog shader bufSize g).1 = out
      then some (B.glGetShaderInfoLog shader bufSize g).2 else none
  | .createProgram ret, g =>
    if (B.glCreateProgram g).1 = ret then some (B.glCreateProgram g).2 else none
  | .attachShader program shader, g => some (B.glAttachShader program shader g)
  | .linkProgram program, g => some (B.glLinkProgram program g)
  | .getProgramiv program pname out, g =>
    if (B.glGetProgramiv program pname g).1 = out then some (B.glGetProgramiv program pname g).2
    else none
  | .getProgramInfoLog program bufSize out, g =>
    if (B.glGetProgramInfoLog program bufSize g).1 = out
      then some (B.glGetProgramInfoLog program bufSize g).2 else none
  | .deleteShader shader, g => some (B.glDeleteShader shader g)
  | .useProgram program, g => some (B.glUseProgram program g)
  | .getUniformLocation program name ret, g =>
    if (B.glGetUniformLocation program name g).1 = ret
      then some (B.glGetUniformLocation program name g).2 else none
  | .uniform1i location v0, g => some (B.glUniform1i location v0 g)
  | .uniform1f location v0, g => some (B.glUniform1f location v0 g)

/-- A call log run on the backend from state `g`, call by call. -/
def Backend.replay {σ : Type} (B : Backend σ) : List GLCall → σ → Option σ
  | [], g => some g
  | call :: rest, g => (B.step call g).bind (B.replay rest)

/-- In the run of the backend from state `s` that `calls` logs, `call` is
issued when the backend is in state `g`: the calls logged before it lead from
`s` to `g`. -/
def issuedAt {σ : Type} (B : Backend σ) (s : σ) (calls : List GLCall) (call : GLCall)
    (g : σ) : Prop :=
  ∃ pre post, calls = pre ++ call :: post ∧ B.replay pre s = some g

/-- The toy files and `dir`, a directory: it opens, and reading it fails with
nothing read. -/
def toyFilesWithDir : FileSystem := fun path =>
  if path = "dir" then .readFails "" else toyFiles path

/-- The toy files and `nul.vs`, a readable file with a NUL character in the
middle of its content. -/
def toyFilesWithNul : FileSystem := fun path =>
  if path = "nul.vs" then .readable "ab\x00cd" else toyFiles path

/-- Calls to `glShaderSource`. -/
def GLCall.isShaderSource : GLCall → Bool
  | .shaderSource _ _ => true
  | _ => false

/-! ## The example `src/1.getting_started/4.1.textures/textures.cpp`

The vertex data, the index data, the three `glVertexAttribPointer` calls and
the `glDrawElements` call of `main`. Floats are written as their IEEE-754
binary32 bit patterns (`0.5f` is `0x3F000000`, `-0.5f` is `0xBF000000`, `1.0f`
is `0x3F800000`, `0.0f` is `0`); sizes and offsets are in bytes. -/

namespace Textures

/-- `sizeof(float)`. -/
def sizeofFloat : Nat := 4

/-- `sizeof(unsigned int)`. -/
def sizeofUInt : Nat := 4

def GL_FLOAT : GLenum := 0x1406
def GL_UNSIGNED_INT : GLenum := 0x1405
def GL_TRIANGLES : GLenum := 0x0004

/-- Lines 61-67: `float vertices[]`, positions, colors, texture coords. -/
def vertices : List GLfloat :=
  [⟨0x3F000000⟩, ⟨0x3F000000⟩, ⟨0⟩, ⟨0x3F800000⟩, ⟨0⟩, ⟨0⟩, ⟨0x3F800000⟩, ⟨0x3F800000⟩,
   ⟨0x3F000000⟩, ⟨0xBF000000⟩, ⟨0⟩, ⟨0⟩, ⟨0x3F800000⟩, ⟨0⟩, ⟨0x3F800000⟩, ⟨0⟩,
   ⟨0xBF000000⟩, ⟨0xBF000000⟩, ⟨0⟩, ⟨0⟩, ⟨0⟩, ⟨0x3F800000⟩, ⟨0⟩, ⟨0⟩,
   ⟨0xBF000000⟩, ⟨0x3F000000⟩, ⟨0⟩, ⟨0x3F800000⟩, ⟨0x3F800000⟩, ⟨0⟩, ⟨0⟩, ⟨0x3F800000⟩]

/-- Lines 68-71: `unsigned int indices[]`, two triangles. -/
def indices : List Nat := [0, 1, 3, 1, 2, 3]

/-- Line 84: `glBufferData(GL_ARRAY_BUFFER, sizeof(vertices), ...)`, the size
in bytes of the vertex buffer. -/
def vertexBufferSize : Nat := vertices.length * sizeofFloat

/-- Line 88: `glBufferData(GL_ELEMENT_ARRAY_BUFFER, sizeof(indices), ...)`, the
size in bytes of the index buffer. -/
def indexBufferSize : Nat := indices.length * sizeofUInt

/-- The arguments of one `glVertexAttribPointer` call; `stride` and `pointer`
are byte counts. -/
structure VertexAttrib where
  index : Nat
  size : Nat
  type : GLenum
  normalized : Bool
  stride : Nat
  pointer : Nat
  deriving DecidableEq, Repr

/-- Lines 92-99: the three attributes; each one is enabled right after it is
set. -/
def attribs : List VertexAttrib :=
  [⟨0, 3, GL_FLOAT, false, 8 * sizeofFloat, 0⟩,
   ⟨1, 3, GL_FLOAT, false, 8 * sizeofFloat, 3 * sizeofFloat⟩,
   ⟨2, 2, GL_FLOAT, false, 8 * sizeofFloat, 6 * sizeofFloat⟩]

/-- The arguments of `glDrawElements`; `offset` is a byte offset into the index
buffer. -/
structure DrawElements where
  mode : GLenum
  count : Nat
  type : GLenum
  offset : Nat
  deriving DecidableEq, Repr

/-- Line 145: `glDrawElements(GL_TRIANGLES, 6, GL_UNSIGNED_INT, 0)`. -/
def draw : DrawElements := ⟨GL_TRIANGLES, 6, GL_UNSIGNED_INT, 0⟩

/-- The first and one-past-last byte read for attribute `a` of vertex `i`. -/
def attribRange (a : VertexAttrib) (i : Nat) : Nat × Nat :=
  (i * a.stride + a.pointer, i * a.stride + a.pointer + a.size * sizeofFloat)

/-- The attributes tile a vertex of `stride` bytes: starting from byte `start`,
each attribute begins where the previous one ended, and the last one ends at
`stride`. -/
def tiles (stride : Nat) : Nat → List VertexAttrib → Bool
  | start, [] => start == stride
  | start, a :: rest =>
    a.stride == stride && a.pointer == start && tiles stride (start + a.size * sizeofFloat) rest

end Textures

/-! ## The shape of a construction -/

theorem checkCompileErrors_stage_status {σ : Type} (B : Backend σ) (shader : GLuint)
    (type : String) (ht : type ≠ "PROGRAM") (w : World σ) :
    (Shader.checkCompileErrors B shader type w).1 =
      (B.glGetShaderiv shader GL_COMPILE_STATUS w.gl).1 := by
  simp only [Shader.checkCompileErrors, World.query, World.print]
  split_ifs <;> simp_all

theorem checkCompileErrors_stage_calls {σ : Type} (B : Backend σ) (shader : GLuint)
    (type : String) (ht : type ≠ "PROGRAM") (w : World σ) :
    (Shader.checkCompileErrors B shader type w).2.calls =
      w.calls ++ ([GLCall.getShaderiv shader GL_COMPILE_STATUS
          (B.glGetShaderiv shader GL_COMPILE_STATUS w.gl).1] ++
        if (B.glGetShaderiv shader GL_COMPILE_STATUS w.gl).1 = 0 then
          [GLCall.getShaderInfoLog shader 1024
            (B.glGetShaderInfoLog shader 1024 (B.glGetShaderiv shader GL_COMPILE_STATUS w.gl).2).1]
        else []) := by
  simp only [Shader.checkCompileErrors, World.query, World.print]
  split_ifs <;> simp_all

theorem checkCompileErrors_stage_cout {σ : Type} (B : Backend σ) (shader : GLuint)
    (type : String) (ht : type ≠ "PROGRAM") (w : World σ) :
    (Shader.checkCompileErrors B shader type w).2.cout =
      w.cout ++
        if (B.glGetShaderiv shader GL_COMPILE_STATUS w.gl).1 = 0 then
          [Diag.compileError type
            (B.glGetShaderInfoLog shader 1024 (B.glGetShaderiv shader GL_COMPILE_STATUS w.gl).2).1]
        else [] := by
  simp only [Shader.checkCompileErrors, World.query, World.print]
  split_ifs <;> simp_all

theorem checkCompileErrors_program_status {σ : Type} (B : Backend σ) (program : GLuint)
    (w : World σ) :
    (Shader.checkCompileErrors B program "PROGRAM" w).1 =
      (B.glGetProgramiv program GL_LINK_STATUS w.gl).1 := by
  simp only [Shader.checkCompileErrors, World.query, World.print]
  split_ifs <;> simp_all

theorem checkCompileErrors_program_calls {σ : Type} (B : Backend σ) (program : GLuint)
    (w : World σ) :
    (Shader.checkCompileErrors B program "PROGRAM" w).2.calls =
      w.calls ++ ([GLCall.getProgramiv program GL_LINK_STATUS
          (B.glGetProgramiv program GL_LINK_STATUS w.gl).1] ++
        if (B.glGetProgramiv program GL_LINK_STATUS w.gl).1 = 0 then
          [GLCall.getProgramInfoLog program 1024
            (B.glGetProgramInfoLog program 1024 (B.glGetProgramiv program GL_LINK_STATUS w.gl).2).1]
        else []) := by
  simp only [Shader.checkCompileErrors, World.query, World.print]
  split_ifs <;> simp_all

theorem checkCompileErrors_program_cout {σ : Type} (B : Backend σ) (program : GLuint)
    (w : World σ) :
    (Shader.checkCompileErrors B program "PROGRAM" w).2.cout =
      w.cout ++
        if (B.glGetProgramiv program GL_LINK_STATUS w.gl).1 = 0 then
          [Diag.linkError "PROGRAM"
            (B.glGetProgramInfoLog program 1024 (B.glGetProgramiv program GL_LINK_STATUS w.gl).2).1]
        else [] := by
  simp only [Shader.checkCompileErrors, World.query, World.print]
  split_ifs <;> simp_all

theorem vertex_ne_program : ("VERTEX" : String) ≠ "PROGRAM" := by decide

theorem fragment_ne_program : ("FRAGMENT" : String) ≠ "PROGRAM" := by decide

/-- The `try` block raises ios failures only, so the `catch` clause takes
whatever it raises: the `try`/`catch` statement always completes. It calls
nothing; it prints the file-read diagnostic when the block raised. -/
theorem loadSources_ok {σ : Type} (fs : FileSystem) (vertexPath fragmentPath : String)
    (w : World σ) :
    ∃ src, Shader.loadSources fs vertexPath fragmentPath w = .ok src ∧
      src.2.gl = w.gl ∧ src.2.calls = w.calls ∧
      src.2.cout = w.cout ++ readDiags (tryReadSources fs vertexPath fragmentPath) ∧
      src.1 = (match tryReadSources fs vertexPath fragmentPath with
        | .ok codes => codes
        | .error _ => ("", "")) := by
  unfold Shader.loadSources tryReadSources
  cases fs vertexPath <;> cases fs fragmentPath <;>
    simp [readDiags, FileOutcome.open, FileOutcome.rdbuf, FileOutcome.close, World.print,
      bind, Except.bind, pure, Except.pure]

/-- The calls and the diagnostics of lines 50-74, in terms of the values the
backend returned. -/
theorem compileAndLink_logs {σ : Type} (B : Backend σ) (src : (String × String) × World σ) :
    ∃ vlog flog plog : String,
      (Shader.compileAndLink B src).world.calls =
        src.2.calls ++ (stageCalls GL_VERTEX_SHADER (Shader.compileAndLink B src).vertex
          (cStr (Shader.compileAndLink B src).vertexCode)
          (Shader.compileAndLink B src).vertexStatus vlog
        ++ stageCalls GL_FRAGMENT_SHADER (Shader.compileAndLink B src).fragment
          (cStr (Shader.compileAndLink B src).fragmentCode)
          (Shader.compileAndLink B src).fragmentStatus flog
        ++ programCalls (Shader.compileAndLink B src).shader.ID
          (Shader.compileAndLink B src).vertex
          (Shader.compileAndLink B src).fragment
          (Shader.compileAndLink B src).linkStatus plog
        ++ [GLCall.deleteShader (Shader.compileAndLink B src).vertex,
            GLCall.deleteShader (Shader.compileAndLink B src).fragment]) ∧
      (Shader.compileAndLink B src).world.cout =
        src.2.cout
        ++ ((if (Shader.compileAndLink B src).vertexStatus = 0
              then [Diag.compileError "VERTEX" vlog] else [])
        ++ (if (Shader.compileAndLink B src).fragmentStatus = 0
              then [Diag.compileError "FRAGMENT" flog] else [])
        ++ (if (Shader.compileAndLink B src).linkStatus = 0
              then [Diag.linkError "PROGRAM" plog] else [])) ∧
      (Shader.compileAndLink B src).vertexCode = src.1.1 ∧
      (Shader.compileAndLink B src).fragmentCode = src.1.2 := by
  exact ⟨_, _, _, by
    simp only [Shader.compileAndLink, World.command, World.query,
      checkCompileErrors_stage_status _ _ _ vertex_ne_program,
      checkCompileErrors_stage_status _ _ _ fragment_ne_program,
      checkCompileErrors_stage_calls _ _ _ vertex_ne_program,
      checkCompileErrors_stage_calls _ _ _ fragment_ne_program,
      checkCompileErrors_stage_cout _ _ _ vertex_ne_program,
      checkCompileErrors_stage_cout _ _ _ fragment_ne_program,
      checkCompileErrors_program_status, checkCompileErrors_program_calls,
      checkCompileErrors_program_cout,
      stageCalls, programCalls, List.append_assoc, List.nil_append, List.cons_append,
      and_true]
    exact ⟨rfl, rfl⟩⟩

/-- The constructor returns, with what lines 50-74 make of the sources the
`try`/`catch` statement left. -/
theorem construct_returns {σ : Type} (B : Backend σ) (fs : FileSystem)
    (vertexPath fragmentPath : String) (w : World σ) :
    ∃ src, Shader.construct B fs vertexPath fragmentPath w = .ok (Shader.compileAndLink B src) ∧
      constructionFrom B fs vertexPath fragmentPath w = Shader.compileAndLink B src ∧
      src.2.gl = w.gl ∧ src.2.calls = w.calls ∧
      src.2.cout = w.cout ++ readDiags (tryReadSources fs vertexPath fragmentPath) ∧
      src.1 = (match tryReadSources fs vertexPath fragmentPath with
        | .ok codes => codes
        | .error _ => ("", "")) := by
  obtain ⟨src, hsrc, hgl, hcalls, hcout, hcodes⟩ := loadSources_ok fs vertexPath fragmentPath w
  exact ⟨src, by simp [Shader.construct, hsrc],
    by simp [constructionFrom, Shader.construct, hsrc], hgl, hcalls, hcout, hcodes⟩

/-- The calls and the diagnostics of a construction, in terms of the values the
backend returned. -/
theorem construction_logs {σ : Type} (B : Backend σ) (fs : FileSystem)
    (vertexPath fragmentPath : String) (s : σ) :
    ∃ vlog flog plog : String,
      (construction B fs vertexPath fragmentPath s).world.calls =
        stageCalls GL_VERTEX_SHADER (construction B fs vertexPath fragmentPath s).vertex
          (cStr (construction B fs vertexPath fragmentPath s).vertexCode)
          (construction B fs vertexPath fragmentPath s).vertexStatus vlog
        ++ stageCalls GL_FRAGMENT_SHADER (construction B fs vertexPath fragmentPath s).fragment
          (cStr (construction B fs vertexPath fragmentPath s).fragmentCode)
          (construction B fs vertexPath fragmentPath s).fragmentStatus flog
        ++ programCalls (construction B fs vertexPath fragmentPath s).shader.ID
          (construction B fs vertexPath fragmentPath s).vertex
          (construction B fs vertexPath fragmentPath s).fragment
          (construction B fs vertexPath fragmentPath s).linkStatus plog
        ++ [GLCall.deleteShader (construction B fs vertexPath fragmentPath s).vertex,
            GLCall.deleteShader (construction B fs vertexPath fragmentPath s).fragment] ∧
      (construction B fs vertexPath fragmentPath s).world.cout =
        readDiags (tryReadSources fs vertexPath fragmentPath)
        ++ (if (construction B fs vertexPath fragmentPath s).vertexStatus = 0
              then [Diag.compileError "VERTEX" vlog] else [])
        ++ (if (construction B fs vertexPath fragmentPath s).fragmentStatus = 0
              then [Diag.compileError "FRAGMENT" flog] else [])
        ++ (if (construction B fs vertexPath fragmentPath s).linkStatus = 0
              then [Diag.linkError "PROGRAM" plog] else []) := by
  obtain ⟨src, -, hc, -, hcalls, hcout, -⟩ :=
    construct_returns B fs vertexPath fragmentPath (World.start s)
  obtain ⟨vlog, flog, plog, h1, h2, -⟩ := compileAndLink_logs B src
  unfold construction
  rw [hc]
  refine ⟨vlog, flog, plog, ?_, ?_⟩
  · rw [h1, hcalls]; simp [World.start]
  · rw [h2, hcout]; simp [World.start]

/-- A text without NUL character is passed whole. -/
theorem cStr_of_text (text : String) (h : Char.ofNat 0 ∉ text.data) : cStr text = text := by
  unfold cStr
  have : text.data.takeWhile (fun ch => ch != Char.ofNat 0) = text.data := by
    rw [List.takeWhile_eq_self_iff]
    intro ch hch
    simp only [bne_iff_ne, ne_eq]
    rintro rfl
    exact h hch
  rw [this]

theorem tryReadSources_readable (fs : FileSystem) (vertexPath fragmentPath : String)
    (vtext ftext : String) (hv : fs vertexPath = .readable vtext)
    (hf : fs fragmentPath = .readable ftext) :
    tryReadSources fs vertexPath fragmentPath = .ok (vtext, ftext) := by
  simp [tryReadSources, hv, hf, FileOutcome.open, FileOutcome.rdbuf, FileOutcome.close,
    bind, Except.bind, pure, Except.pure]

theorem tryReadSources_failure (fs : FileSystem) (vertexPath fragmentPath : String)
    (h : (fs vertexPath).failure ≠ none ∨ (fs fragmentPath).failure ≠ none) :
    ∃ what, tryReadSources fs vertexPath fragmentPath = .error (.iosFailure what) ∧
      ((fs vertexPath).failure = some what ∨ (fs fragmentPath).failure = some what) := by
  unfold tryReadSources
  cases hv : fs vertexPath <;> cases hf : fs fragmentPath <;>
    simp_all [FileOutcome.failure, FileOutcome.open, FileOutcome.rdbuf, FileOutcome.close,
      bind, Except.bind, pure, Except.pure]

theorem construction_codes {σ : Type} (B : Backend σ) (fs : FileSystem)
    (vertexPath fragmentPath : String) (s : σ) :
    (construction B fs vertexPath fragmentPath s).vertexCode =
        (match tryReadSources fs vertexPath fragmentPath with
          | .ok codes => codes.1
          | .error _ => "") ∧
      (construction B fs vertexPath fragmentPath s).fragmentCode =
        (match tryReadSources fs vertexPath fragmentPath with
          | .ok codes => codes.2
          | .error _ => "") := by
  obtain ⟨src, -, hc, -, -, -, hcodes⟩ :=
    construct_returns B fs vertexPath fragmentPath (World.start s)
  obtain ⟨_, _, _, -, -, hv, hf⟩ := compileAndLink_logs B src
  unfold construction
  rw [hc, hv, hf, hcodes]
  cases tryReadSources fs vertexPath fragmentPath <;> simp

/-- C3. Success path: two readable files whose texts the backend compiles
(both stages) and links successfully give a construction that prints nothing,
and the link status the backend reported as success is the one of the handle
stored in `ID`. -/
theorem success_path_no_diagnostic {σ : Type} (B : Backend σ) (fs : FileSystem)
    (vertexPath fragmentPath : String) (s : σ) (vtext ftext : String)
    (hv : fs vertexPath = .readable vtext) (hf : fs fragmentPath = .readable ftext)
    (hvs : (construction B fs vertexPath fragmentPath s).vertexStatus ≠ 0)
    (hfs : (construction B fs vertexPath fragmentPath s).fragmentStatus ≠ 0)
    (hls : (construction B fs vertexPath fragmentPath s).linkStatus ≠ 0) :
    (construction B fs vertexPath fragmentPath s).world.cout = [] ∧
      GLCall.getProgramiv (construction B fs vertexPath fragmentPath s).shader.ID GL_LINK_STATUS
          (construction B fs vertexPath fragmentPath s).linkStatus
        ∈ (construction B fs vertexPath fragmentPath s).world.calls ∧
      (construction B fs vertexPath fragmentPath s).linkStatus ≠ 0 := by
  obtain ⟨vlog, flog, plog, hcalls, hcout⟩ := construction_logs B fs vertexPath fragmentPath s
  rw [tryReadSources_readable fs vertexPath fragmentPath vtext ftext hv hf] at hcout
  generalize construction B fs vertexPath fragmentPath s = c at hvs hfs hls hcalls hcout ⊢
  refine ⟨?_, ?_, hls⟩
  · rw [hcout]; simp [readDiags, hvs, hfs, hls]
  · rw [hcalls]; simp [programCalls]

/-- C3, instantiated: the two toy files on the reference backend with the toy
compiler. -/
theorem success_path_no_diagnostic_witness :
    (construction (refGL toyGlsl) toyFiles "a.vs" "a.fs" GLState.init).world.cout = [] ∧
      GLCall.getProgramiv 3 GL_LINK_STATUS 1
        ∈ (construction (refGL toyGlsl) toyFiles "a.vs" "a.fs" GLState.init).world.calls ∧
      (construction (refGL toyGlsl) toyFiles "a.vs" "a.fs" GLState.init).linkStatus ≠ 0 :=
  success_path_no_diagnostic (refGL toyGlsl) toyFiles "a.vs" "a.fs" GLState.init
    "void main()\x7b\x7d" "out vec4 c;" (by decide) (by decide) (by decide) (by decide)
    (by decide)

theorem uniform_setProgram_same (s : GLState) (program : GLuint) (p : ProgramObject)
    (l : Nat) :
    (s.setProgram program p).uniform program l = p.uniforms[l]?.map Uniform.value := by
  simp [GLState.uniform, GLState.setProgram, setAt]

theorem uniform_setProgram_other (s : GLState) (program q : GLuint) (p : ProgramObject)
    (l : Nat) (h : q ≠ program) :
    (s.setProgram program p).uniform q l = s.uniform q l := by
  simp [GLState.uniform, GLState.setProgram, setAt, h]

/-- Loading the uniform at a location of the program in use: that uniform gets
the loaded value and every other uniform keeps its value. -/
theorem uniform_load (load : UniformValue → Option UniformValue) (loc : Nat) (s : GLState)
    (old new : UniformValue) (hold : s.uniform s.current loc = some old)
    (hload : load old = some new) :
    (RefGL.uniform load (loc : Int) s).uniform s.current loc = some new ∧
      sameUniformsExcept s (RefGL.uniform load (loc : Int) s) s.current loc ∧
      (RefGL.uniform load (loc : Int) s).current = s.current := by
  unfold GLState.uniform at hold
  cases hp : s.programs s.current with
  | none => simp [hp] at hold
  | some p =>
    simp only [hp, Option.map_eq_some'] at hold
    obtain ⟨u, hu, hval⟩ := hold
    have hne : (loc : Int) ≠ -1 := by omega
    have hnot : ¬ (loc : Int) < 0 := by omega
    have hstep : RefGL.uniform load (loc : Int) s =
        s.setProgram s.current { p with uniforms := p.uniforms.set loc { u with value := new } } := by
      simp [RefGL.uniform, hne, hnot, hp, hu, hval, hload]
    have hlt : loc < p.uniforms.length := by
      rcases Nat.lt_or_ge loc p.uniforms.length with h | h
      · exact h
      · rw [List.getElem?_eq_none h] at hu; cases hu
    rw [hstep]
    refine ⟨?_, ?_, rfl⟩
    · rw [uniform_setProgram_same]
      simp [hlt]
    · intro q l hql
      by_cases hq : q = s.current
      · subst hq
        have hl : l ≠ loc := by
          rcases hql with h | h
          · exact absurd rfl h
          · exact h
        rw [uniform_setProgram_same]
        simp [GLState.uniform, hp, List.getElem?_set_ne (Ne.symm hl)]
      · rw [uniform_setProgram_other _ _ _ _ _ hq]

theorem glGetUniformLocation_state (program : GLuint) (name : String) (s : GLState) :
    (RefGL.glGetUniformLocation program name s).2 = s := by
  unfold RefGL.glGetUniformLocation
  cases s.programs program <;> rfl

/-- C4 (amended). On the reference backend, when `P.ID` is the program in use
and `name` is an active uniform of `P` (the location query answers a location
`loc`), each setter applied to a uniform of its own type (`setBool` to a bool,
`setInt` to an int, `setFloat` to a float) makes that uniform of `P` hold the
given value and changes no other uniform of `P` and no uniform of any other
program. -/
theorem set_uniform_of_program_in_use (glsl : Glsl) (P : Shader) (name : String)
    (w : World GLState) (loc : Nat) (hcur : w.gl.current = P.ID)
    (hloc : (RefGL.glGetUniformLocation P.ID (cStr name) w.gl).1 = (loc : Int)) :
    (∀ value old, w.gl.uniform P.ID loc = some (.bool old) →
      (P.setBool (refGL glsl) name value w).gl.uniform P.ID loc = some (.bool value) ∧
        sameUniformsExcept w.gl (P.setBool (refGL glsl) name value w).gl P.ID loc) ∧
    (∀ value old, w.gl.uniform P.ID loc = some (.int old) →
      (P.setInt (refGL glsl) name value w).gl.uniform P.ID loc = some (.int value) ∧
        sameUniformsExcept w.gl (P.setInt (refGL glsl) name value w).gl P.ID loc) ∧
    (∀ value old, w.gl.uniform P.ID loc = some (.float old) →
      (P.setFloat (refGL glsl) name value w).gl.uniform P.ID loc = some (.float value) ∧
        sameUniformsExcept w.gl (P.setFloat (refGL glsl) name value w).gl P.ID loc) := by
  refine ⟨?_, ?_, ?_⟩
  · intro value old hold
    have h := uniform_load (RefGL.load1i (boolToInt value)) loc w.gl (.bool old)
      (.bool value) (by rw [hcur]; exact hold) (by cases value <;> simp [RefGL.load1i, boolToInt])
    rw [hcur] at h
    simpa [Shader.setBool, World.query, World.command, refGL, RefGL.glUniform1i, hloc,
      glGetUniformLocation_state] using And.intro h.1 h.2.1
  · intro value old hold
    have h := uniform_load (RefGL.load1i value) loc w.gl (.int old)
      (.int value) (by rw [hcur]; exact hold) (by simp [RefGL.load1i])
    rw [hcur] at h
    simpa [Shader.setInt, World.query, World.command, refGL, RefGL.glUniform1i, hloc,
      glGetUniformLocation_state] using And.intro h.1 h.2.1
  · intro value old hold
    have h := uniform_load (RefGL.load1f value) loc w.gl (.float old)
      (.float value) (by rw [hcur]; exact hold) (by simp [RefGL.load1f])
    rw [hcur] at h
    simpa [Shader.setFloat, World.query, World.command, refGL, RefGL.glUniform1f, hloc,
      glGetUniformLocation_state] using And.intro h.1 h.2.1

/-- C4 (amended), instantiated: `P` is built, activated, and its int uniform
`count` at location `1` is set to `5`. -/
theorem set_uniform_of_program_in_use_witness :
    (sceneP.shader.use (refGL toyGlsl) sceneP.world).gl.current = sceneP.shader.ID ∧
    (RefGL.glGetUniformLocation sceneP.shader.ID (cStr "count")
      (sceneP.shader.use (refGL toyGlsl) sceneP.world).gl).1 = ((1 : Nat) : Int) ∧
    (sceneP.shader.setInt (refGL toyGlsl) "count" 5
      (sceneP.shader.use (refGL toyGlsl) sceneP.world)).gl.uniform sceneP.shader.ID 1
        = some (.int 5) :=
  ⟨by decide, by decide,
    ((set_uniform_of_program_in_use toyGlsl sceneP.shader "count"
      (sceneP.shader.use (refGL toyGlsl) sceneP.world) 1 (by decide) (by decide)).2.1
        5 0 (by decide)).1⟩

/-- C4 as stated fails. Two shaders `P` and `Q` are built from the same files
and `Q` is the program in use. `count` is an active uniform of `P` at location
`1`, yet `P.setInt("count", 5)` leaves `count` of `P` at `0` and sets the
uniform at location `1` of `Q` to `5`; after `P.use()` the same call does set
`count` of `P`, so the activation order decides the result. -/
theorem set_uniform_other_program_in_use_counterexample :
    sceneP.shader.ID = 3 ∧ sceneQ.shader.ID = 6 ∧ sceneQUsed.gl.current = 6 ∧
    (RefGL.glGetUniformLocation 3 (cStr "count") sceneQUsed.gl).1 = 1 ∧
    sceneQUsed.gl.uniform 3 1 = some (.int 0) ∧
    sceneQUsed.gl.uniform 6 1 = some (.int 0) ∧
    (sceneP.shader.setInt (refGL toyGlsl) "count" 5 sceneQUsed).gl.uniform 3 1
      = some (.int 0) ∧
    (sceneP.shader.setInt (refGL toyGlsl) "count" 5 sceneQUsed).gl.uniform 6 1
      = some (.int 5) ∧
    (sceneP.shader.setInt (refGL toyGlsl) "count" 5
      (sceneP.shader.use (refGL toyGlsl) sceneQUsed)).gl.uniform 3 1 = some (.int 5) := by
  decide

/-- C5. Absent uniform: on the reference backend, when the location query for
`name` in `P.ID` answers `-1`, each of the three setters prints nothing and
leaves the whole backend state as it was, hence every uniform value of every
program and the program in use. The setters return nothing and take the object
as `const`, so `ID` is not touched and no failure reaches the caller. -/
theorem set_absent_uniform_changes_nothing (glsl : Glsl) (P : Shader) (name : String)
    (w : World GLState) (h : (RefGL.glGetUniformLocation P.ID (cStr name) w.gl).1 = -1)
    (b : Bool) (i : GLint) (f : GLfloat) :
    ((P.setBool (refGL glsl) name b w).gl = w.gl ∧
      (P.setBool (refGL glsl) name b w).cout = w.cout) ∧
    ((P.setInt (refGL glsl) name i w).gl = w.gl ∧
      (P.setInt (refGL glsl) name i w).cout = w.cout) ∧
    ((P.setFloat (refGL glsl) name f w).gl = w.gl ∧
      (P.setFloat (refGL glsl) name f w).cout = w.cout) := by
  simp [Shader.setBool, Shader.setInt, Shader.setFloat, World.query, World.command, refGL,
    RefGL.glUniform1i, RefGL.glUniform1f, RefGL.uniform, h, glGetUniformLocation_state]

/-- C5, instantiated: `P` has no uniform called `missing`. -/
theorem set_absent_uniform_changes_nothing_witness :
    (RefGL.glGetUniformLocation sceneP.shader.ID (cStr "missing") sceneP.world.gl).1 = -1 ∧
    (sceneP.shader.setInt (refGL toyGlsl) "missing" 5 sceneP.world).gl = sceneP.world.gl :=
  ⟨by decide,
    (set_absent_uniform_changes_nothing toyGlsl sceneP.shader "missing" sceneP.world
      (by decide) true 5 ⟨0⟩).2.1.1⟩

/-- C9 (amended). On the reference backend `use()` issues the single call
`glUseProgram(ID)` and prints nothing; afterwards the program in use is `P.ID`
when `P.ID` is `0` or names a successfully linked program, and is the program
that was in use before otherwise. No object of the backend is changed. -/
theorem use_activates_linked_program (glsl : Glsl) (P : Shader) (w : World GLState) :
    (P.use (refGL glsl) w).gl.current =
        (if P.ID = 0 ∨ w.gl.isLinked P.ID = true then P.ID else w.gl.current) ∧
      (P.use (refGL glsl) w).cout = w.cout ∧
      (P.use (refGL glsl) w).calls = w.calls ++ [GLCall.useProgram P.ID] ∧
      (P.use (refGL glsl) w).gl.programs = w.gl.programs ∧
      (P.use (refGL glsl) w).gl.shaders = w.gl.shaders := by
  obtain ⟨⟨shaders, programs, current, lastName⟩, calls, cout⟩ := w
  simp only [Shader.use, World.command, refGL, RefGL.glUseProgram, GLState.isLinked]
  by_cases h0 : P.ID = 0
  · simp [h0]
  · cases hp : programs P.ID with
    | none => simp [h0]
    | some p => cases hl : p.linkStatus <;> simp [h0, hl]

/-- C9 as stated fails. `P` is built and in use (program `3`); `R` is then
built from two missing files, so both compilations and the link fail and `R.ID`
is the unlinked program `6`. After `R.use()` the program in use is still `3`,
not `R.ID`. -/
theorem use_of_unlinked_program_counterexample :
    sceneR.shader.ID = 6 ∧ sceneR.linkStatus = 0 ∧ sceneR.world.gl.current = 3 ∧
    (sceneR.shader.use (refGL toyGlsl) sceneR.world).gl.current = 3 ∧
    (sceneR.shader.use (refGL toyGlsl) sceneR.world).gl.current ≠ sceneR.shader.ID := by
  decide

/-- C13. `setBool` is `setInt` on 0/1: for every backend, object, name, value
and world, `setBool(name, v)` gives the same world (backend state, call log and
console) as `setInt(name, 1)` when `v` is true and as `setInt(name, 0)` when
`v` is false. Each setter appends exactly two calls: one location query
against `ID` for the name, then one set call at the location that query
returned; a second set call queries again, on the state the first one left, so
no location is kept between calls. -/
theorem setBool_is_setInt_and_queries_each_time {σ : Type} (B : Backend σ) (P : Shader)
    (name : String) (w : World σ) :
    P.setBool B name true w = P.setInt B name 1 w ∧
    P.setBool B name false w = P.setInt B name 0 w ∧
    (∀ v : Bool, (P.setBool B name v w).calls = w.calls ++
      [GLCall.getUniformLocation P.ID (cStr name) (B.glGetUniformLocation P.ID (cStr name) w.gl).1,
        GLCall.uniform1i (B.glGetUniformLocation P.ID (cStr name) w.gl).1 (boolToInt v)]) ∧
    (∀ i : GLint, (P.setInt B name i w).calls = w.calls ++
      [GLCall.getUniformLocation P.ID (cStr name) (B.glGetUniformLocation P.ID (cStr name) w.gl).1,
        GLCall.uniform1i (B.glGetUniformLocation P.ID (cStr name) w.gl).1 i]) ∧
    (∀ f : GLfloat, (P.setFloat B name f w).calls = w.calls ++
      [GLCall.getUniformLocation P.ID (cStr name) (B.glGetUniformLocation P.ID (cStr name) w.gl).1,
        GLCall.uniform1f (B.glGetUniformLocation P.ID (cStr name) w.gl).1 f]) ∧
    (∀ i j : GLint, (P.setInt B name j (P.setInt B name i w)).calls = w.calls ++
      [GLCall.getUniformLocation P.ID (cStr name) (B.glGetUniformLocation P.ID (cStr name) w.gl).1,
        GLCall.uniform1i (B.glGetUniformLocation P.ID (cStr name) w.gl).1 i,
        GLCall.getUniformLocation P.ID (cStr name)
          (B.glGetUniformLocation P.ID (cStr name) (P.setInt B name i w).gl).1,
        GLCall.uniform1i
          (B.glGetUniformLocation P.ID (cStr name) (P.setInt B name i w).gl).1 j]) := by
  refine ⟨rfl, rfl, ?_, ?_, ?_, ?_⟩
  · intro v
    simp [Shader.setBool, World.query, World.command]
  · intro i
    simp [Shader.setInt, World.query, World.command]
  · intro f
    simp [Shader.setFloat, World.query, World.command]
  · intro i j
    simp [Shader.setInt, World.query, World.command]

/-- C14. The draw call of the textures example stays inside the uploaded
buffers: its index count is the length of `indices` and the indices it reads
fit the index buffer; every index is below the number of vertices, `4`; for
every index and each of the three attributes the bytes read lie within the
vertex buffer of 32 floats; and the three attributes (3, 3 and 2 floats at
float offsets 0, 3 and 6, stride 8 floats) tile each vertex of 8 floats with
neither overlap nor gap. -/
theorem textures_draw_within_buffers :
    Textures.draw.count = Textures.indices.length ∧
    Textures.draw.count = 6 ∧
    Textures.draw.offset + Textures.draw.count * Textures.sizeofUInt
      ≤ Textures.indexBufferSize ∧
    Textures.vertices.length = 32 ∧
    (∀ i ∈ Textures.indices, i < Textures.vertices.length / 8) ∧
    Textures.vertices.length / 8 = 4 ∧
    (∀ i ∈ Textures.indices, ∀ a ∈ Textures.attribs,
      (Textures.attribRange a i).1 ≤ (Textures.attribRange a i).2 ∧
        (Textures.attribRange a i).2 ≤ Textures.vertexBufferSize) ∧
    Textures.attribs.map (fun a => (a.index, a.size, a.pointer / Textures.sizeofFloat,
        a.stride / Textures.sizeofFloat)) = [(0, 3, 0, 8), (1, 3, 3, 8), (2, 2, 6, 8)] ∧
    Textures.tiles (8 * Textures.sizeofFloat) 0 Textures.attribs = true := by
  decide

/-! ## The call log is the run of the backend -/

theorem replay_append {σ : Type} (B : Backend σ) (l₁ l₂ : List GLCall) (g : σ) :
    B.replay (l₁ ++ l₂) g = (B.replay l₁ g).bind (B.replay l₂) := by
  induction l₁ generalizing g with
  | nil => simp [Backend.replay]
  | cons c rest ih =>
    simp only [List.cons_append, Backend.replay]
    cases B.step c g with
    | none => simp
    | some g' => simpa using ih g'

theorem command_replays {σ : Type} (B : Backend σ) (w : World σ) (f : σ → σ) (c : GLCall)
    (s : σ) (h : B.replay w.calls s = some w.gl) (hstep : B.step c w.gl = some (f w.gl)) :
    B.replay (w.command f c).calls s = some (w.command f c).gl := by
  simp [World.command, replay_append, h, Backend.replay, hstep]

theorem query_replays {σ α : Type} (B : Backend σ) (w : World σ) (f : σ → α × σ)
    (c : α → GLCall) (s : σ) (h : B.replay w.calls s = some w.gl)
    (hstep : B.step (c (f w.gl).1) w.gl = some (f w.gl).2) :
    B.replay (w.query f c).2.calls s = some (w.query f c).2.gl := by
  simp [World.query, replay_append, h, Backend.replay, hstep]

theorem checkCompileErrors_replays {σ : Type} (B : Backend σ) (shader : GLuint)
    (type : String) (w : World σ) (s : σ) (h : B.replay w.calls s = some w.gl) :
    B.replay (Shader.checkCompileErrors B shader type w).2.calls s =
      some (Shader.checkCompileErrors B shader type w).2.gl := by
  simp only [Shader.checkCompileErrors, World.query, World.print]
  split_ifs <;> simp [replay_append, h, Backend.replay, Backend.step]

/-- Lines 50-74 keep the log in step with the backend. -/
theorem compileAndLink_replays {σ : Type} (B : Backend σ) (src : (String × String) × World σ)
    (s : σ) (h : B.replay src.2.calls s = some src.2.gl) :
    B.replay (Shader.compileAndLink B src).world.calls s =
      some (Shader.compileAndLink B src).world.gl := by
  unfold Shader.compileAndLink
  refine command_replays B _ _ _ s ?_ rfl
  refine command_replays B _ _ _ s ?_ rfl
  refine checkCompileErrors_replays B _ _ _ s ?_
  refine command_replays B _ _ _ s ?_ rfl
  refine command_replays B _ _ _ s ?_ rfl
  refine command_replays B _ _ _ s ?_ rfl
  refine query_replays B _ _ _ s ?_ (by simp [Backend.step])
  refine checkCompileErrors_replays B _ _ _ s ?_
  refine command_replays B _ _ _ s ?_ rfl
  refine command_replays B _ _ _ s ?_ rfl
  refine query_replays B _ _ _ s ?_ (by simp [Backend.step])
  refine checkCompileErrors_replays B _ _ _ s ?_
  refine command_replays B _ _ _ s ?_ rfl
  refine command_replays B _ _ _ s ?_ rfl
  exact query_replays B _ _ _ s h (by simp [Backend.step])

/-- The call log of a construction, run on the backend from the state the
constructor started in, gives back every logged result and ends in the state
the constructor left. -/
theorem construction_replays {σ : Type} (B : Backend σ) (fs : FileSystem)
    (vertexPath fragmentPath : String) (s : σ) :
    B.replay (construction B fs vertexPath fragmentPath s).world.calls s =
      some (construction B fs vertexPath fragmentPath s).world.gl := by
  obtain ⟨src, -, hc, hgl, hcalls, -⟩ :=
    construct_returns B fs vertexPath fragmentPath (World.start s)
  unfold construction
  rw [hc]
  apply compileAndLink_replays
  rw [hcalls, hgl]
  rfl

/-- A call inside a log that replays is issued at some state of the run, and
the backend accepts it there. -/
theorem replay_issued {σ : Type} (B : Backend σ) (pre post : List GLCall) (call : GLCall)
    (s fin : σ) (h : B.replay (pre ++ call :: post) s = some fin) :
    ∃ g g', B.replay pre s = some g ∧ B.step call g = some g' := by
  rw [replay_append] at h
  cases hpre : B.replay pre s with
  | none => simp [hpre] at h
  | some g =>
    simp only [hpre, Option.some_bind, Backend.replay] at h
    cases hstep : B.step call g with
    | none => simp [hstep] at h
    | some g' => exact ⟨g, g', rfl, hstep⟩

theorem issued_createProgram {σ : Type} (B : Backend σ) (s fin : σ) (calls pre post : List GLCall)
    (ret : GLuint) (hrun : B.replay calls s = some fin)
    (h : calls = pre ++ GLCall.createProgram ret :: post) :
    ∃ g, issuedAt B s calls (GLCall.createProgram ret) g ∧ (B.glCreateProgram g).1 = ret := by
  rw [h] at hrun
  obtain ⟨g, g', hpre, hstep⟩ := replay_issued B pre post _ s fin hrun
  refine ⟨g, ⟨pre, post, h, hpre⟩, ?_⟩
  simp only [Backend.step] at hstep
  by_contra hne
  simp [hne] at hstep

/-- C7. Construction is total and non-fatal: for every backend, file system
and backend state the constructor returns an object and no exception leaves it
(the `try` block raises `std::ifstream::failure` only, which the `catch`
clause takes; nothing after it raises). Exactly one `glCreateProgram` call is
made, and `ID` is what the backend's `glCreateProgram` returns in the backend
state the run has reached when that call is issued, whatever the compile and
link statuses. -/
theorem constructor_returns_created_program {σ : Type} (B : Backend σ)
    (fs : FileSystem) (vertexPath fragmentPath : String) (s : σ) :
    ∃ c : Construction σ,
      Shader.construct B fs vertexPath fragmentPath (World.start s) = .ok c ∧
      B.replay c.world.calls s = some c.world.gl ∧
      (∃ g, issuedAt B s c.world.calls (GLCall.createProgram c.shader.ID) g ∧
        (B.glCreateProgram g).1 = c.shader.ID) ∧
      c.world.calls.filter GLCall.isCreateProgram = [GLCall.createProgram c.shader.ID] := by
  obtain ⟨src, hok, hc, -⟩ := construct_returns B fs vertexPath fragmentPath (World.start s)
  obtain ⟨vlog, flog, plog, hcalls, -⟩ := construction_logs B fs vertexPath fragmentPath s
  have hrun := construction_replays B fs vertexPath fragmentPath s
  have hcon : construction B fs vertexPath fragmentPath s = Shader.compileAndLink B src := hc
  rw [hcon] at hcalls hrun
  generalize Shader.compileAndLink B src = c at hok hcalls hrun
  refine ⟨c, hok, hrun, ?_, ?_⟩
  · refine issued_createProgram B s c.world.gl c.world.calls
      (stageCalls GL_VERTEX_SHADER c.vertex (cStr c.vertexCode) c.vertexStatus vlog ++
        stageCalls GL_FRAGMENT_SHADER c.fragment (cStr c.fragmentCode) c.fragmentStatus flog)
      ([GLCall.attachShader c.shader.ID c.vertex, GLCall.attachShader c.shader.ID c.fragment,
        GLCall.linkProgram c.shader.ID,
        GLCall.getProgramiv c.shader.ID GL_LINK_STATUS c.linkStatus] ++
        (if c.linkStatus = 0 then [GLCall.getProgramInfoLog c.shader.ID 1024 plog] else []) ++
        [GLCall.deleteShader c.vertex, GLCall.deleteShader c.fragment])
      c.shader.ID hrun ?_
    rw [hcalls]
    simp [programCalls]
  · rw [hcalls]
    simp only [stageCalls, programCalls]
    split_ifs <;> simp [List.filter_cons, GLCall.isCreateProgram]

/-- C8 (amended). Source routing: with two readable files, the calls that set
up the stages are, in this order, create a `GL_VERTEX_SHADER` stage, give it
the content of the file at `vertexPath` up to its first NUL character, compile
it, create a `GL_FRAGMENT_SHADER` stage, give it the content of the file at
`fragmentPath` up to its first NUL character, compile it. A content without
NUL character is given whole. The log is the run of the backend. -/
theorem sources_routed_up_to_first_nul {σ : Type} (B : Backend σ) (fs : FileSystem)
    (vertexPath fragmentPath : String) (s : σ) (vtext ftext : String)
    (hv : fs vertexPath = .readable vtext) (hf : fs fragmentPath = .readable ftext) :
    (construction B fs vertexPath fragmentPath s).world.calls.filter GLCall.isStageSetup =
      [GLCall.createShader GL_VERTEX_SHADER (construction B fs vertexPath fragmentPath s).vertex,
        GLCall.shaderSource (construction B fs vertexPath fragmentPath s).vertex
          ⟨vtext.data.takeWhile (fun ch => ch != Char.ofNat 0)⟩,
        GLCall.compileShader (construction B fs vertexPath fragmentPath s).vertex,
        GLCall.createShader GL_FRAGMENT_SHADER
          (construction B fs vertexPath fragmentPath s).fragment,
        GLCall.shaderSource (construction B fs vertexPath fragmentPath s).fragment
          ⟨ftext.data.takeWhile (fun ch => ch != Char.ofNat 0)⟩,
        GLCall.compileShader (construction B fs vertexPath fragmentPath s).fragment] ∧
    (Char.ofNat 0 ∉ vtext.data →
      (⟨vtext.data.takeWhile (fun ch => ch != Char.ofNat 0)⟩ : String) = vtext) ∧
    (Char.ofNat 0 ∉ ftext.data →
      (⟨ftext.data.takeWhile (fun ch => ch != Char.ofNat 0)⟩ : String) = ftext) ∧
    B.replay (construction B fs vertexPath fragmentPath s).world.calls s =
      some (construction B fs vertexPath fragmentPath s).world.gl := by
  obtain ⟨vlog, flog, plog, hcalls, -⟩ := construction_logs B fs vertexPath fragmentPath s
  obtain ⟨hvc, hfc⟩ := construction_codes B fs vertexPath fragmentPath s
  rw [tryReadSources_readable fs vertexPath fragmentPath vtext ftext hv hf] at hvc hfc
  simp only at hvc hfc
  refine ⟨?_, cStr_of_text vtext, cStr_of_text ftext,
    construction_replays B fs vertexPath fragmentPath s⟩
  rw [hcalls, hvc, hfc]
  simp only [stageCalls, programCalls, cStr]
  split_ifs <;> simp [List.filter_cons, GLCall.isStageSetup]

/-- C8 (amended), instantiated on the two toy files. -/
theorem sources_routed_up_to_first_nul_witness :
    (construction (refGL toyGlsl) toyFiles "a.vs" "a.fs" GLState.init).world.calls.filter
        GLCall.isStageSetup =
      [GLCall.createShader GL_VERTEX_SHADER 1,
        GLCall.shaderSource 1 "void main()\x7b\x7d",
        GLCall.compileShader 1,
        GLCall.createShader GL_FRAGMENT_SHADER 2,
        GLCall.shaderSource 2 "out vec4 c;",
        GLCall.compileShader 2] :=
  (sources_routed_up_to_first_nul (refGL toyGlsl) toyFiles "a.vs" "a.fs" GLState.init
    "void main()\x7b\x7d" "out vec4 c;" (by decide) (by decide)).1

/-- C8 as stated fails. The vertex file `nul.vs` is readable and holds the five
characters `a`, `b`, NUL, `c`, `d`; the text given to the vertex stage is `ab`,
not the full content: `c_str()` is passed with a `NULL` length array, so the
backend reads up to the first NUL. -/
theorem source_with_nul_is_truncated_counterexample :
    toyFilesWithNul "nul.vs" = .readable "ab\x00cd" ∧
    toyFilesWithNul "a.fs" = .readable "out vec4 c;" ∧
    (construction (refGL toyGlsl) toyFilesWithNul "nul.vs" "a.fs" GLState.init).world.calls.filter
        GLCall.isShaderSource =
      [GLCall.shaderSource 1 "ab", GLCall.shaderSource 2 "out vec4 c;"] ∧
    GLCall.shaderSource 1 "ab\x00cd"
      ∉ (construction (refGL toyGlsl) toyFilesWithNul "nul.vs" "a.fs" GLState.init).world.calls := by
  decide

set_option maxRecDepth 8000 in
/-- C6, evaluated where it fails. `dir` opens but cannot be read, `a.fs` is
readable. The constructor prints two diagnostics, none of them a file-read
diagnostic, and goes on: the vertex stage is given the empty string. Next to
it, the path that does report: with `x.vs`, which cannot be opened, the
file-read diagnostic is printed first. -/
theorem unreadable_file_prints_no_file_diagnostic :
    (toyFilesWithDir "dir").unreadable = true ∧
    toyFilesWithDir "a.fs" = .readable "out vec4 c;" ∧
    (construction (refGL toyGlsl) toyFilesWithDir "dir" "a.fs" GLState.init).world.cout.countP
      Diag.isFileRead = 0 ∧
    (construction (refGL toyGlsl) toyFilesWithDir "dir" "a.fs" GLState.init).world.cout.length
      = 2 ∧
    GLCall.shaderSource 1 ""
      ∈ (construction (refGL toyGlsl) toyFilesWithDir "dir" "a.fs" GLState.init).world.calls ∧
    (toyFilesWithDir "x.vs").unreadable = true ∧
    (construction (refGL toyGlsl) toyFilesWithDir "x.vs" "a.fs" GLState.init).world.cout.head? =
      some (Diag.fileNotRead "basic_ios::clear") := by
  decide

set_option maxRecDepth 8000 in
/-- C11, evaluated where it fails. With `dir` as vertex file the phases that
fail are the file read, the vertex compile and the link, in this order; the
diagnostics printed are those of the vertex compile and of the link only, two
entries, the first of which is not a file-read diagnostic. -/
theorem unreadable_file_missing_from_diagnostic_sequence :
    (toyFilesWithDir "dir").unreadable = true ∧
    (construction (refGL toyGlsl) toyFilesWithDir "dir" "a.fs" GLState.init).vertexStatus = 0 ∧
    (construction (refGL toyGlsl) toyFilesWithDir "dir" "a.fs" GLState.init).fragmentStatus = 1 ∧
    (construction (refGL toyGlsl) toyFilesWithDir "dir" "a.fs" GLState.init).linkStatus = 0 ∧
    (construction (refGL toyGlsl) toyFilesWithDir "dir" "a.fs" GLState.init).world.cout.length
      = 2 ∧
    (construction (refGL toyGlsl) toyFilesWithDir "dir" "a.fs" GLState.init).world.cout.map
        (Diag.isCompileOf "VERTEX") = [true, false] ∧
    (construction (refGL toyGlsl) toyFilesWithDir "dir" "a.fs" GLState.init).world.cout.map
        Diag.isLink = [false, true] ∧
    (construction (refGL toyGlsl) toyFilesWithDir "dir" "a.fs" GLState.init).world.cout.map
        Diag.isFileRead = [false, false] := by
  decide

set_option maxRecDepth 8000 in
/-- C12, evaluated where it fails. The vertex file `a.vs` is readable, the
fragment file `dir` cannot be read. The vertex text is not emptied: the vertex
stage is given the whole content of `a.vs`; and no file-read diagnostic is
printed, where the claim has exactly one. -/
theorem unreadable_file_leaves_other_text_whole :
    toyFilesWithDir "a.vs" = .readable "void main()\x7b\x7d" ∧
    (toyFilesWithDir "dir").unreadable = true ∧
    (construction (refGL toyGlsl) toyFilesWithDir "a.vs" "dir" GLState.init).vertexCode =
      "void main()\x7b\x7d" ∧
    (construction (refGL toyGlsl) toyFilesWithDir "a.vs" "dir" GLState.init).world.calls.filter
        GLCall.isShaderSource =
      [GLCall.shaderSource 1 "void main()\x7b\x7d", GLCall.shaderSource 2 ""] ∧
    (construction (refGL toyGlsl) toyFilesWithDir "a.vs" "dir" GLState.init).world.cout.countP
      Diag.isFileRead = 0 := by
  decide

end LearnOpenGL
